import Mathlib

/-!
Shallow embedding of `src/schemathesis/extra/pytest_plugin.py`: the
collection-time expansion of a schemathesis-bound property test into
concrete pytest items (`SchemathesisCase.collect`, `_gen_items`,
`_make_test`, `_get_test_name`) and the run-time exception triage
(`pytest_pyfunc_call`).

External collaborators that are not part of this file's source
(`InputType` from `constants.py`, `Endpoint` from `models.py`,
`create_test` from `_hypothesis.py`, hypothesis' exception classes and
pytest's hook machinery) are modelled as explicit data, as the spec
describes them.
-/

/-- Modelled from the spec: `ValidityClass`, "enumerated tag, currently
{valid, invalid}" (the `InputType` enum of `constants.py`, which is not
part of the given sources). `value` is the enum member's string value. -/
inductive InputType where
  | valid
  | invalid
deriving DecidableEq, Repr

/-- The string value of the enum member, used inside generated test names. -/
def InputType.value : InputType → String
  | .valid => "valid"
  | .invalid => "invalid"

/-- Modelled from the spec: an `Operation`/`Endpoint` is "one addressable
unit of the target API (method + path ...); identity is (method, path)"
(the `Endpoint` model of `models.py`, which is not part of the given
sources). Only the fields used by the plugin's naming scheme are kept. -/
structure Endpoint where
  method : String
  path : String
deriving DecidableEq, Repr

/-- Result of the external `create_test` call (from `_hypothesis.py`, not in
the given sources): it may succeed, raise `InvalidSchema` (the only
exception `_make_test` catches), or raise any other exception, which
`_make_test` lets propagate. -/
inductive CreateResult where
  | ok
  | invalidSchema
  | otherError (msg : String)
deriving DecidableEq, Repr

/-- The callable stored in a generated item: either the hypothesis test
built by `create_test` for an (endpoint, input type) pair, or the
`lambda: pytest.fail("Invalid schema for endpoint")` substituted by
`_make_test` when `create_test` raised `InvalidSchema`. -/
inductive TestFun where
  | created (e : Endpoint) (t : InputType)
  | failWith (msg : String)
deriving DecidableEq, Repr

/-- Fixture information attached to an item (`FuncFixtureInfo`). Only the
aspect the plugin touches is modelled: `prune_dependency_tree` mutates it
on the parametrized path, so we record whether pruning happened. -/
structure FixtureInfo where
  argnames : List String
  pruned : Bool := false
deriving DecidableEq, Repr

/-- `fixtureinfo.prune_dependency_tree()` (pytest internal, called on the
parametrized path of `_gen_items`). -/
def FixtureInfo.prune_dependency_tree (fi : FixtureInfo) : FixtureInfo :=
  { fi with pruned := true }

/-- A generated test item, with the constructor arguments
`SchemathesisFunction` receives in `_gen_items`. -/
structure SchemathesisFunction where
  name : String
  callspec : Option String := none
  callobj : TestFun
  fixtureinfo : FixtureInfo
  keywords : List (String × Bool) := []
  originalname : Option String := none
  input_type : InputType
deriving DecidableEq, Repr

/-- The state a `SchemathesisCase` collector sees: its own `name`, the bound
test's `input_types` and endpoint catalog (`get_all_endpoints()`, which may
raise — hence `Except`), the behaviour of the external `create_test`, the
parametrization calls the `pytest_generate_tests` hooks register on the
metafunc (`metafunc._calls`, as their `callspec.id`s, in registration
order), and the resolved fixture info. -/
structure SchemathesisCase where
  name : String
  input_types : List InputType
  endpointsResult : Except String (List Endpoint)
  createTest : Endpoint → InputType → CreateResult
  calls : List String
  fixtureinfo : FixtureInfo

/-- `SchemathesisCase._get_test_name`:
`f"{self.name}[{input_type.value}_input][{endpoint.method}:{endpoint.path}]"`. -/
def SchemathesisCase._get_test_name (st : SchemathesisCase) (e : Endpoint) (t : InputType) : String :=
  st.name ++ "[" ++ t.value ++ "_input][" ++ e.method ++ ":" ++ e.path ++ "]"

/-- `SchemathesisCase._make_test`: calls `create_test` and converts an
`InvalidSchema` exception into `lambda: pytest.fail("Invalid schema for
endpoint")`; any other exception propagates (`Except.error`). -/
def SchemathesisCase._make_test (st : SchemathesisCase) (e : Endpoint) (t : InputType) :
    Except String TestFun :=
  match st.createTest e t with
  | .ok => .ok (.created e t)
  | .invalidSchema => .ok (.failWith "Invalid schema for endpoint")
  | .otherError msg => .error msg

/-- `SchemathesisCase._gen_items`: one item with the plain name when the
metafunc has no registered calls, otherwise one item per registered call
with the `callspec.id`-suffixed name, pruned fixture info, the callspec's
keyword and the plain name as `originalname`.

The zero-call branch is modelled as evidently intended: in the given
source the corresponding line (line 48) contains a stray backtick before
the `input_type` keyword argument, which is a Python syntax error. -/
def SchemathesisCase._gen_items (st : SchemathesisCase) (e : Endpoint) (t : InputType) :
    Except String (List SchemathesisFunction) :=
  match st._make_test e t with
  | .error msg => .error msg
  | .ok funcobj =>
    let name := st._get_test_name e t
    if st.calls = [] then
      .ok [{ name := name, callobj := funcobj, fixtureinfo := st.fixtureinfo, input_type := t }]
    else
      .ok (st.calls.map fun cid =>
        { name := name ++ "[" ++ cid ++ "]"
          callspec := some cid
          callobj := funcobj
          fixtureinfo := st.fixtureinfo.prune_dependency_tree
          keywords := [(cid, true)]
          originalname := some name
          input_type := t })

/-- Inner loop of the comprehension in `collect`: items for all endpoints at
one input type, in catalog order; the first escaping exception aborts the
whole comprehension. -/
def SchemathesisCase.itemsForType (st : SchemathesisCase) (eps : List Endpoint) (t : InputType) :
    Except String (List SchemathesisFunction) :=
  match eps with
  | [] => .ok []
  | e :: rest =>
    match st._gen_items e t with
    | .error msg => .error msg
    | .ok items =>
      match st.itemsForType rest t with
      | .error msg => .error msg
      | .ok more => .ok (items ++ more)

/-- Outer loop of the comprehension in `collect`: input types in order; for
each, `get_all_endpoints()` is consulted (it may raise) and the inner loop
runs. -/
def SchemathesisCase.collectAux (st : SchemathesisCase) : List InputType → Except String (List SchemathesisFunction)
  | [] => .ok []
  | t :: rest =>
    match st.endpointsResult with
    | .error msg => .error msg
    | .ok eps =>
      match st.itemsForType eps t with
      | .error msg => .error msg
      | .ok items =>
        match st.collectAux rest with
        | .error msg => .error msg
        | .ok more => .ok (items ++ more)

/-- Result of `collect`: either the flat item list, or — when any exception
escaped the enumeration — the single synthetic failure produced by
`pytest.fail("Error during collection")`. -/
inductive CollectResult where
  | items (l : List SchemathesisFunction)
  | collectionFailure (msg : String)
deriving DecidableEq, Repr

/-- `SchemathesisCase.collect`: the nested list comprehension over
`input_types` × `get_all_endpoints()` × `_gen_items`, wrapped in
`try/except Exception: pytest.fail("Error during collection")`. -/
def SchemathesisCase.collect (st : SchemathesisCase) : CollectResult :=
  match st.collectAux st.input_types with
  | .ok items => .items items
  | .error _ => .collectionFailure "Error during collection"

/-- The names of the collected items, in emission order (`none` when
collection degraded to the synthetic failure). -/
def CollectResult.itemNames : CollectResult → Option (List String)
  | .items l => some (l.map fun f => f.name)
  | .collectionFailure _ => none

/-- The item `_gen_items` yields for (endpoint, input type) when
materialization did not raise an unexpected exception (normal form used by
the structure lemmas; matches the source's constructor calls). -/
def SchemathesisCase.makeTestFun (st : SchemathesisCase) (e : Endpoint) (t : InputType) : TestFun :=
  match st.createTest e t with
  | .invalidSchema => .failWith "Invalid schema for endpoint"
  | _ => .created e t

/-- Normal form of `_gen_items`' output on the non-raising path. -/
def SchemathesisCase.genItems (st : SchemathesisCase) (e : Endpoint) (t : InputType) :
    List SchemathesisFunction :=
  if st.calls = [] then
    [{ name := st._get_test_name e t, callobj := st.makeTestFun e t,
       fixtureinfo := st.fixtureinfo, input_type := t }]
  else
    st.calls.map fun cid =>
      { name := st._get_test_name e t ++ "[" ++ cid ++ "]"
        callspec := some cid
        callobj := st.makeTestFun e t
        fixtureinfo := st.fixtureinfo.prune_dependency_tree
        keywords := [(cid, true)]
        originalname := some (st._get_test_name e t)
        input_type := t }

/-- The names `_gen_items` emits for one (endpoint, input type) pair: they
depend only on the collector's base name and the registered call ids. -/
def genNames (base : String) (calls : List String) (e : Endpoint) (t : InputType) : List String :=
  let n := base ++ "[" ++ t.value ++ "_input][" ++ e.method ++ ":" ++ e.path ++ "]"
  if calls = [] then [n] else calls.map fun cid => n ++ "[" ++ cid ++ "]"

/-- Exceptions the wrapped test body may raise, as `pytest_pyfunc_call`
distinguishes them: hypothesis' `Unsatisfiable`, hypothesis'
`InvalidArgument` (with its `args` tuple), or anything else. -/
inductive PyExn where
  | unsatisfiable
  | invalidArgument (args : List String)
  | other (msg : String)
deriving DecidableEq, Repr

/-- What `pytest_pyfunc_call` can observe about the item being run: a
`SchemathesisFunction` (with its `input_type`) or any other pytest item. -/
inductive ItemKind where
  | schemathesis (input_type : InputType)
  | ordinary
deriving DecidableEq, Repr

/-- Final outcome of the run-wrapper hook for one invocation. -/
inductive RunOutcome where
  | passed
  | skipped (reason : String)
  | failed (msg : String)
  | error (e : PyExn)
  | wrapperError (msg : String)
deriving DecidableEq, Repr

/-- `pytest_pyfunc_call` (hookwrapper): the wrapped call runs inside
`capture_hypothesis_output`, yielding `result` and the captured `output`
lines. If the item is a `SchemathesisFunction` with `input_type` invalid
and the call raised `Unsatisfiable`, `pytest.skip("BAR")` fires (nothing is
forwarded). Otherwise every captured line is forwarded via `base_report`,
then `outcome.get_result()` re-raises: an `InvalidArgument` is converted to
`pytest.fail(exc.args[0])` (an out-of-range access when `args` is empty);
any other exception propagates unchanged. The returned pair is (outcome,
forwarded diagnostic lines). -/
def pytest_pyfunc_call (pyfuncitem : ItemKind) (result : Except PyExn Unit) (output : List String) :
    RunOutcome × List String :=
  match pyfuncitem, result with
  | .schemathesis .invalid, .error .unsatisfiable => (.skipped "BAR", [])
  | _, _ =>
    match result with
    | .ok _ => (.passed, output)
    | .error (.invalidArgument args) =>
      match args with
      | [] => (.wrapperError "tuple index out of range", output)
      | m :: _ => (.failed m, output)
    | .error e => (.error e, output)

/-- Two endpoints with distinct `(method, path)` whose `method:path`
renderings coincide: `"GET:" : "/a"` and `"GET" : ":/a"` both render as
`GET::/a`. -/
def stDistinctPairSameName : SchemathesisCase :=
  { name := "test_a"
    input_types := [.valid]
    endpointsResult := .ok [⟨"GET:", "/a"⟩, ⟨"GET", ":/a"⟩]
    createTest := fun _ _ => .ok
    calls := []
    fixtureinfo := ⟨[], false⟩ }

/-- Catalog used by `stPlain`. -/
def epsPlain : List Endpoint := [⟨"GET", "/users"⟩, ⟨"POST", "/orders"⟩]

/-- A well-behaved collector state: two validity classes, two endpoints,
no extra parametrization. -/
def stPlain : SchemathesisCase :=
  { name := "test_api"
    input_types := [.valid, .invalid]
    endpointsResult := .ok epsPlain
    createTest := fun _ _ => .ok
    calls := []
    fixtureinfo := ⟨["base_url"], false⟩ }

/-- A collector whose endpoint catalog raises during enumeration. -/
def stCatalogRaises : SchemathesisCase :=
  { name := "test_api"
    input_types := [.valid]
    endpointsResult := .error "schema is broken"
    createTest := fun _ _ => .ok
    calls := []
    fixtureinfo := ⟨[], false⟩ }

/-- A collector where `create_test` raises an unexpected (non-InvalidSchema)
exception on the second endpoint, after the first one was already
processed. -/
def stMidStreamRaise : SchemathesisCase :=
  { name := "test_api"
    input_types := [.valid]
    endpointsResult := .ok [⟨"GET", "/ok"⟩, ⟨"GET", "/bad"⟩]
    createTest := fun e _ => if e.path = "/bad" then .otherError "boom" else .ok
    calls := []
    fixtureinfo := ⟨[], false⟩ }

/-- The endpoint used by `stNoCalls` and `stTwoCalls`. -/
def epA : Endpoint := ⟨"GET", "/a"⟩

/-- A collector with no registered parametrization calls (zero-call path of
`_gen_items`). -/
def stNoCalls : SchemathesisCase :=
  { name := "test_one"
    input_types := [.valid]
    endpointsResult := .ok [epA]
    createTest := fun _ _ => .ok
    calls := []
    fixtureinfo := ⟨["db"], false⟩ }

/-- A collector whose generation hooks registered two parametrization
calls, with ids `"x0"` and `"x1"`. -/
def stTwoCalls : SchemathesisCase :=
  { name := "test_one"
    input_types := [.valid]
    endpointsResult := .ok [epA]
    createTest := fun _ _ => .ok
    calls := ["x0", "x1"]
    fixtureinfo := ⟨["db"], false⟩ }

/-- The endpoint whose materialization raises `InvalidSchema` in
`stPartialFailure`. -/
def epBroken : Endpoint := ⟨"GET", "/x"⟩

/-- The endpoint whose materialization succeeds in `stPartialFailure`. -/
def epHealthy : Endpoint := ⟨"GET", "/y"⟩

/-- `create_test` raises `InvalidSchema` for `epBroken` (both validity
classes) and succeeds for every other endpoint. -/
def stPartialFailure : SchemathesisCase :=
  { name := "test_api"
    input_types := [.valid, .invalid]
    endpointsResult := .ok [epBroken, epHealthy]
    createTest := fun e _ => if e = epBroken then .invalidSchema else .ok
    calls := []
    fixtureinfo := ⟨[], false⟩ }

/-- Catalog shared by `stSameCatalogA` and `stSameCatalogB`. -/
def epsAB : List Endpoint := [⟨"GET", "/a"⟩, ⟨"PUT", "/b"⟩]

/-- First of a pair of collector states agreeing on name, input types,
catalog and registered calls, but with different `create_test` behaviour
and different fixture info. -/
def stSameCatalogA : SchemathesisCase :=
  { name := "test_api"
    input_types := [.valid, .invalid]
    endpointsResult := .ok epsAB
    createTest := fun _ _ => .ok
    calls := ["p0"]
    fixtureinfo := ⟨["db"], false⟩ }

/-- Second of the pair: same catalog state as `stSameCatalogA`, different
materialization results and fixtures. -/
def stSameCatalogB : SchemathesisCase :=
  { name := "test_api"
    input_types := [.valid, .invalid]
    endpointsResult := .ok epsAB
    createTest := fun _ _ => .invalidSchema
    calls := ["p0"]
    fixtureinfo := ⟨["base_url", "db"], true⟩ }

/-! ### Structure lemmas for collection -/

theorem SchemathesisCase.make_test_eq (st : SchemathesisCase) (e : Endpoint) (t : InputType)
    (h : ∀ m, st.createTest e t ≠ .otherError m) :
    st._make_test e t = .ok (st.makeTestFun e t) := by
  cases hc : st.createTest e t with
  | ok => simp [SchemathesisCase._make_test, SchemathesisCase.makeTestFun, hc]
  | invalidSchema => simp [SchemathesisCase._make_test, SchemathesisCase.makeTestFun, hc]
  | otherError m => exact absurd hc (h m)

theorem SchemathesisCase.gen_items_eq (st : SchemathesisCase) (e : Endpoint) (t : InputType)
    (h : ∀ m, st.createTest e t ≠ .otherError m) :
    st._gen_items e t = .ok (st.genItems e t) := by
  unfold SchemathesisCase._gen_items SchemathesisCase.genItems
  rw [st.make_test_eq e t h]
  by_cases hc : st.calls = [] <;> simp [hc]

theorem SchemathesisCase.itemsForType_eq (st : SchemathesisCase) (t : InputType)
    (eps : List Endpoint) (h : ∀ e ∈ eps, ∀ m, st.createTest e t ≠ .otherError m) :
    st.itemsForType eps t = .ok (eps.flatMap fun e => st.genItems e t) := by
  induction eps with
  | nil => rfl
  | cons e rest ih =>
    have h1 := st.gen_items_eq e t (h e (List.mem_cons_self e rest))
    have h2 := ih fun e' he' m => h e' (List.mem_cons_of_mem _ he') m
    simp [SchemathesisCase.itemsForType, h1, h2, List.flatMap_cons]

theorem SchemathesisCase.collectAux_eq (st : SchemathesisCase) (eps : List Endpoint)
    (hep : st.endpointsResult = .ok eps)
    (hok : ∀ t e m, st.createTest e t ≠ .otherError m) :
    ∀ ts : List InputType,
      st.collectAux ts = .ok (ts.flatMap fun t => eps.flatMap fun e => st.genItems e t) := by
  intro ts
  induction ts with
  | nil => rfl
  | cons t rest ih =>
    have h1 := st.itemsForType_eq t eps fun e _ m => hok t e m
    simp [SchemathesisCase.collectAux, hep, h1, ih, List.flatMap_cons]

theorem SchemathesisCase.collect_eq (st : SchemathesisCase) (eps : List Endpoint)
    (hep : st.endpointsResult = .ok eps)
    (hok : ∀ t e m, st.createTest e t ≠ .otherError m) :
    st.collect = .items (st.input_types.flatMap fun t => eps.flatMap fun e => st.genItems e t) := by
  unfold SchemathesisCase.collect
  rw [st.collectAux_eq eps hep hok st.input_types]

theorem SchemathesisCase.genItems_map_name (st : SchemathesisCase) (e : Endpoint) (t : InputType) :
    (st.genItems e t).map (fun f => f.name) = genNames st.name st.calls e t := by
  unfold SchemathesisCase.genItems genNames SchemathesisCase._get_test_name
  by_cases hc : st.calls = [] <;> simp [hc]

theorem SchemathesisCase.collect_names (st : SchemathesisCase) (eps : List Endpoint)
    (hep : st.endpointsResult = .ok eps)
    (hok : ∀ t e m, st.createTest e t ≠ .otherError m) :
    st.collect.itemNames = some (st.input_types.flatMap fun t =>
      eps.flatMap fun e => genNames st.name st.calls e t) := by
  rw [st.collect_eq eps hep hok]
  simp [CollectResult.itemNames, List.map_flatMap, SchemathesisCase.genItems_map_name]

/-! ### List and string helper lemmas -/

theorem flatMap_singleton_map {α β : Type} (l : List α) (f : α → β) :
    (l.flatMap fun x => [f x]) = l.map f := by
  induction l with
  | nil => rfl
  | cons a rest ih => simp [List.flatMap_cons, ih]

theorem flatMap_map_length {α β γ : Type} (ts : List α) (eps : List β) (g : α → β → γ) :
    (ts.flatMap fun t => eps.map (g t)).length = ts.length * eps.length := by
  induction ts with
  | nil => simp
  | cons t rest ih =>
    simp only [List.flatMap_cons, List.length_append, List.length_map, ih, List.length_cons]
    ring

theorem str_append_inj_mid (a b x y : String) (h : a ++ x ++ b = a ++ y ++ b) : x = y := by
  have hd := congrArg String.data h
  simp only [String.data_append, List.append_assoc] at hd
  exact String.ext (List.append_cancel_right (List.append_cancel_left hd))

theorem str_append_cancel_left (a x y : String) (h : a ++ x = a ++ y) : x = y := by
  have hd := congrArg String.data h
  simp only [String.data_append] at hd
  exact String.ext (List.append_cancel_left hd)

theorem valid_ne_invalid_name (s1 s2 : String) :
    "valid" ++ "_input][" ++ s1 ≠ "invalid" ++ "_input][" ++ s2 := by
  intro h
  have hd := congrArg String.data h
  simp only [String.data_append, List.append_assoc] at hd
  simp at hd

theorem name_inj (base : String) (t1 t2 : InputType) (s1 s2 : String)
    (h : base ++ "[" ++ t1.value ++ "_input][" ++ s1 ++ "]" =
         base ++ "[" ++ t2.value ++ "_input][" ++ s2 ++ "]") :
    t1 = t2 ∧ s1 = s2 := by
  have h' : (base ++ "[") ++ (t1.value ++ "_input][" ++ s1) ++ "]" =
      (base ++ "[") ++ (t2.value ++ "_input][" ++ s2) ++ "]" := by
    simpa [String.append_assoc] using h
  have hmid := str_append_inj_mid _ _ _ _ h'
  cases t1 <;> cases t2 <;> simp only [InputType.value] at hmid
  · exact ⟨rfl, str_append_cancel_left ("valid" ++ "_input][") s1 s2 (by
      simpa [String.append_assoc] using hmid)⟩
  · exact absurd hmid (valid_ne_invalid_name s1 s2)
  · exact absurd hmid.symm (valid_ne_invalid_name s2 s1)
  · exact ⟨rfl, str_append_cancel_left ("invalid" ++ "_input][") s1 s2 (by
      simpa [String.append_assoc] using hmid)⟩

theorem names_nodup (base : String) (ts : List InputType) (mps : List String)
    (hts : ts.Nodup) (hmps : mps.Nodup) :
    (ts.flatMap fun t => mps.map fun s =>
      base ++ "[" ++ t.value ++ "_input][" ++ s ++ "]").Nodup := by
  rw [List.nodup_flatMap]
  constructor
  · intro t _
    exact hmps.map fun s1 s2 hss => (name_inj base t t s1 s2 hss).2
  · refine hts.imp ?_
    intro t1 t2 hneq x hx1 hx2
    obtain ⟨s1, _, he1⟩ := List.mem_map.mp hx1
    obtain ⟨s2, _, he2⟩ := List.mem_map.mp hx2
    exact hneq (name_inj base t1 t2 s1 s2 (he1.trans he2.symm)).1

theorem get_test_name_assoc (st : SchemathesisCase) (e : Endpoint) (t : InputType) :
    st._get_test_name e t =
      st.name ++ "[" ++ t.value ++ "_input][" ++ (e.method ++ ":" ++ e.path) ++ "]" := by
  simp [SchemathesisCase._get_test_name, String.append_assoc]

/-! ### Claim theorems: run-wrapper (`pytest_pyfunc_call`) -/

/-- C2: for an item produced by this core, an `Unsatisfiable` raised under
validity class `invalid` is reinterpreted as a skip with no diagnostic
lines forwarded, while under validity class `valid` the same condition
propagates as a failure and the captured diagnostic lines are forwarded. -/
theorem C2_unsatisfiable_triage (out : List String) :
    pytest_pyfunc_call (.schemathesis .invalid) (.error .unsatisfiable) out
      = (.skipped "BAR", []) ∧
    pytest_pyfunc_call (.schemathesis .valid) (.error .unsatisfiable) out
      = (.error .unsatisfiable, out) :=
  ⟨rfl, rfl⟩

/-- C6: any invocation raising hypothesis' `InvalidArgument` (with at least
one argument) is converted by the run-wrapper into a plain assertion
failure whose message is the condition's first argument, for every kind of
item. -/
theorem C6_invalid_argument_conversion (kind : ItemKind) (m : String) (rest out : List String) :
    pytest_pyfunc_call kind (.error (.invalidArgument (m :: rest))) out = (.failed m, out) := by
  cases kind with
  | schemathesis t => cases t <;> rfl
  | ordinary => rfl

/-- C7 counterexample: the claim says the run-wrapper applies its
classification only to items produced by this core and passes every other
item's outcome through unchanged; but an ordinary (non-schemathesis) item
raising `InvalidArgument("boom")` is converted to a plain assertion
failure instead of being passed through. -/
theorem C7_ordinary_item_not_passed_through :
    pytest_pyfunc_call .ordinary (.error (.invalidArgument ["boom"])) [] = (.failed "boom", []) ∧
    pytest_pyfunc_call .ordinary (.error (.invalidArgument ["boom"])) []
      ≠ (.error (.invalidArgument ["boom"]), []) :=
  ⟨rfl, by decide⟩

/-- C7 amended: only the skip reinterpretation of `Unsatisfiable` is
restricted to items produced by this core (and to validity class
`invalid`); the `InvalidArgument`-to-assertion-failure conversion and the
diagnostic forwarding apply to every item; apart from those two
classifications, outcomes pass through unchanged. -/
theorem C7_classification_scope :
    (∀ out, pytest_pyfunc_call .ordinary (.error .unsatisfiable) out
      = (.error .unsatisfiable, out)) ∧
    (∀ out, pytest_pyfunc_call (.schemathesis .invalid) (.error .unsatisfiable) out
      = (.skipped "BAR", [])) ∧
    (∀ out, pytest_pyfunc_call (.schemathesis .valid) (.error .unsatisfiable) out
      = (.error .unsatisfiable, out)) ∧
    (∀ kind m rest out, pytest_pyfunc_call kind (.error (.invalidArgument (m :: rest))) out
      = (.failed m, out)) ∧
    (∀ kind out, pytest_pyfunc_call kind (.ok ()) out = (.passed, out)) ∧
    (∀ kind msg out, pytest_pyfunc_call kind (.error (.other msg)) out
      = (.error (.other msg), out)) := by
  refine ⟨fun _ => rfl, fun _ => rfl, fun _ => rfl, ?_, ?_, ?_⟩
  · intro kind m rest out
    cases kind with
    | schemathesis t => cases t <;> rfl
    | ordinary => rfl
  · intro kind out
    cases kind with
    | schemathesis t => cases t <;> rfl
    | ordinary => rfl
  · intro kind msg out
    cases kind with
    | schemathesis t => cases t <;> rfl
    | ordinary => rfl

/-- C10: the conversion of `InvalidArgument` reads `exc.args[0]`; this is
safe whenever the args tuple is non-empty, and with an empty args tuple
the wrapper itself raises an out-of-range error instead of producing the
specified assertion failure. -/
theorem C10_args_first_access (kind : ItemKind) (out : List String) :
    (∀ m rest, pytest_pyfunc_call kind (.error (.invalidArgument (m :: rest))) out
      = (.failed m, out)) ∧
    pytest_pyfunc_call kind (.error (.invalidArgument [])) out
      = (.wrapperError "tuple index out of range", out) := by
  constructor
  · intro m rest
    cases kind with
    | schemathesis t => cases t <;> rfl
    | ordinary => rfl
  · cases kind with
    | schemathesis t => cases t <;> rfl
    | ordinary => rfl

/-! ### Claim theorems: collection -/

/-- C3: if any exception escapes the enumeration inside `collect` — the
catalog raising, shown in the first conjunct, or any other escaping
exception, shown in the second — the result is exactly the single
synthetic failure reporting "Error during collection": no partial items
are emitted and the original exception is not re-raised. -/
theorem C3_error_during_collection :
    (∀ (st : SchemathesisCase) (msg : String),
      st.endpointsResult = Except.error msg → st.input_types ≠ [] →
      st.collect = .collectionFailure "Error during collection") ∧
    (∀ (st : SchemathesisCase) (msg : String),
      st.collectAux st.input_types = Except.error msg →
      st.collect = .collectionFailure "Error during collection") := by
  constructor
  · intro st msg hep hne
    cases hts : st.input_types with
    | nil => exact absurd hts hne
    | cons t rest =>
      simp [SchemathesisCase.collect, hts, SchemathesisCase.collectAux, hep]
  · intro st msg haux
    simp [SchemathesisCase.collect, haux]

/-- C3 witness: a catalog that raises, and a catalog where `create_test`
raises an unexpected exception on the second endpoint after the first one
was already processed — both collapse to the single failure marker. -/
theorem C3_error_during_collection_witness :
    (stCatalogRaises.endpointsResult = Except.error "schema is broken" ∧
      stCatalogRaises.input_types ≠ [] ∧
      stCatalogRaises.collect = .collectionFailure "Error during collection") ∧
    (stMidStreamRaise.collectAux stMidStreamRaise.input_types = Except.error "boom" ∧
      stMidStreamRaise.collect = .collectionFailure "Error during collection") :=
  ⟨⟨rfl, by decide,
    C3_error_during_collection.1 stCatalogRaises "schema is broken" rfl (by decide)⟩,
   ⟨rfl, C3_error_during_collection.2 stMidStreamRaise "boom" rfl⟩⟩

/-- C4: in the intended `_gen_items` (the given source's zero-call line 48
contains a stray backtick — a Python syntax error — so this theorem is
about the evidently intended code): with zero registered parametrization
calls exactly one item is emitted, with the plain name and the original
(unpruned) fixture info; with k ≥ 1 registered calls exactly k items are
emitted, each named by appending `[subcase_id]` with the id preserved
verbatim. -/
theorem C4_parametrization_multiplicity (st : SchemathesisCase) (e : Endpoint) (t : InputType)
    (f : TestFun) (hmk : st._make_test e t = .ok f) :
    (st.calls = [] →
      st._gen_items e t =
        .ok [⟨st._get_test_name e t, none, f, st.fixtureinfo, [], none, t⟩]) ∧
    (st.calls ≠ [] →
      st._gen_items e t = .ok (st.calls.map fun cid =>
        ⟨st._get_test_name e t ++ "[" ++ cid ++ "]", some cid, f,
          st.fixtureinfo.prune_dependency_tree, [(cid, true)],
          some (st._get_test_name e t), t⟩)) ∧
    (∃ l, st._gen_items e t = .ok l ∧
      l.length = if st.calls = [] then 1 else st.calls.length) := by
  refine ⟨?_, ?_, ?_⟩
  · intro hc
    unfold SchemathesisCase._gen_items
    rw [hmk]
    simp [hc]
  · intro hc
    unfold SchemathesisCase._gen_items
    rw [hmk]
    simp [hc]
  · unfold SchemathesisCase._gen_items
    rw [hmk]
    by_cases hc : st.calls = [] <;> simp [hc]

/-- C4 witness: the zero-call state emits one plainly-named item carrying
the original fixture info, and the two-call state emits two items with the
sub-case ids `x0`, `x1` preserved verbatim. -/
theorem C4_parametrization_multiplicity_witness :
    (stNoCalls._make_test epA .valid = .ok (.created epA .valid) ∧
      stNoCalls.calls = [] ∧
      stNoCalls._gen_items epA .valid =
        .ok [⟨stNoCalls._get_test_name epA .valid, none, .created epA .valid,
          stNoCalls.fixtureinfo, [], none, .valid⟩]) ∧
    (stTwoCalls._make_test epA .valid = .ok (.created epA .valid) ∧
      stTwoCalls.calls ≠ [] ∧
      stTwoCalls._gen_items epA .valid = .ok (stTwoCalls.calls.map fun cid =>
        ⟨stTwoCalls._get_test_name epA .valid ++ "[" ++ cid ++ "]", some cid,
          .created epA .valid, stTwoCalls.fixtureinfo.prune_dependency_tree,
          [(cid, true)], some (stTwoCalls._get_test_name epA .valid), .valid⟩)) :=
  ⟨⟨rfl, rfl,
    (C4_parametrization_multiplicity stNoCalls epA .valid (.created epA .valid) rfl).1 rfl⟩,
   ⟨rfl, by decide,
    (C4_parametrization_multiplicity stTwoCalls epA .valid
      (.created epA .valid) rfl).2.1 (by decide)⟩⟩

/-- With no registered parametrization calls, the collected item list is one
item per (input type, endpoint) pair, in nested enumeration order. -/
theorem flat_no_calls (st : SchemathesisCase) (eps : List Endpoint)
    (hcalls : st.calls = []) :
    (st.input_types.flatMap fun t => eps.flatMap fun e => st.genItems e t)
      = st.input_types.flatMap fun t => eps.map fun e =>
          (⟨st._get_test_name e t, none, st.makeTestFun e t, st.fixtureinfo, [], none, t⟩ :
            SchemathesisFunction) := by
  simp [SchemathesisCase.genItems, hcalls, flatMap_singleton_map]

/-- C1 counterexample: the claim asserts distinct names for any catalog of
distinct operations, but two endpoints with distinct `(method, path)` —
`("GET:", "/a")` and `("GET", ":/a")` — render to the same `method:path`
string, so collection without parametrization yields two items with the
same name. -/
theorem C1_distinct_names_counterexample :
    stDistinctPairSameName.calls = [] ∧
    stDistinctPairSameName.endpointsResult = .ok [⟨"GET:", "/a"⟩, ⟨"GET", ":/a"⟩] ∧
    ([(⟨"GET:", "/a"⟩ : Endpoint), ⟨"GET", ":/a"⟩] : List Endpoint).Nodup ∧
    stDistinctPairSameName.collect.itemNames
      = some ["test_a[valid_input][GET::/a]", "test_a[valid_input][GET::/a]"] ∧
    ¬ (["test_a[valid_input][GET::/a]", "test_a[valid_input][GET::/a]"] : List String).Nodup :=
  ⟨rfl, rfl, by decide, by decide, by decide⟩

/-- C1 amended: with m endpoints, n validity classes, no registered
parametrization calls and no unexpected materialization exception,
`collect` returns exactly m×n items; each bears the name
`base[validity_input][method:path]`, determined solely by the base name,
the validity class and the operation's method and path; and the names are
pairwise distinct provided the rendered `method:path` strings are pairwise
distinct across the catalog's operations (distinctness of the `(method,
path)` pairs alone does not suffice). -/
theorem C1_item_count_and_names (st : SchemathesisCase) (eps : List Endpoint)
    (hcalls : st.calls = [])
    (hep : st.endpointsResult = .ok eps)
    (hok : ∀ t e m, st.createTest e t ≠ .otherError m)
    (hts : st.input_types.Nodup)
    (hmp : (eps.map fun e => e.method ++ ":" ++ e.path).Nodup) :
    ∃ l, st.collect = .items l ∧
      l.length = st.input_types.length * eps.length ∧
      (l.map fun f => f.name)
        = (st.input_types.flatMap fun t => eps.map fun e => st._get_test_name e t) ∧
      (l.map fun f => f.name).Nodup := by
  refine ⟨_, st.collect_eq eps hep hok, ?_, ?_, ?_⟩
  · rw [flat_no_calls st eps hcalls]
    exact flatMap_map_length _ _ _
  · rw [flat_no_calls st eps hcalls]
    simp [List.map_flatMap, List.map_map, Function.comp_def]
  · rw [flat_no_calls st eps hcalls]
    have h2 : ((st.input_types.flatMap fun t => eps.map fun e =>
        (⟨st._get_test_name e t, none, st.makeTestFun e t, st.fixtureinfo, [], none, t⟩ :
          SchemathesisFunction)).map fun f => f.name)
        = st.input_types.flatMap fun t =>
            (eps.map fun e => e.method ++ ":" ++ e.path).map fun s =>
              st.name ++ "[" ++ t.value ++ "_input][" ++ s ++ "]" := by
      simp [List.map_flatMap, List.map_map, Function.comp_def, get_test_name_assoc]
    rw [h2]
    exact names_nodup st.name st.input_types _ hts hmp

/-- C1 witness: two classes and two colon-free endpoints give four items
with four distinct names. -/
theorem C1_item_count_and_names_witness :
    stPlain.calls = [] ∧
    stPlain.endpointsResult = .ok epsPlain ∧
    stPlain.input_types.Nodup ∧
    (epsPlain.map fun e => e.method ++ ":" ++ e.path).Nodup ∧
    ∃ l, stPlain.collect = .items l ∧
      l.length = stPlain.input_types.length * epsPlain.length ∧
      (l.map fun f => f.name)
        = (stPlain.input_types.flatMap fun t => epsPlain.map fun e => stPlain._get_test_name e t) ∧
      (l.map fun f => f.name).Nodup :=
  ⟨rfl, rfl, by decide, by decide,
    C1_item_count_and_names stPlain epsPlain rfl rfl (fun _ _ _ h => nomatch h)
      (by decide) (by decide)⟩

/-- C5: if materialization raises `InvalidSchema` for endpoint X (in every
validity class) and succeeds for endpoint Y, collection still succeeds:
for each of the n validity classes the item for X carries the callable
that unconditionally fails with "Invalid schema for endpoint", the item
for Y carries the properly created test, both items are in the emitted
sequence, and the sequence has exactly one item per (class, endpoint)
pair. -/
theorem C5_invalid_schema_isolation (st : SchemathesisCase) (eps : List Endpoint)
    (X Y : Endpoint)
    (hcalls : st.calls = [])
    (hep : st.endpointsResult = .ok eps)
    (hX : X ∈ eps) (hY : Y ∈ eps)
    (hfail : ∀ t, st.createTest X t = .invalidSchema)
    (hgood : ∀ t, st.createTest Y t = .ok)
    (hok : ∀ t e m, st.createTest e t ≠ .otherError m) :
    ∃ l, st.collect = .items l ∧
      l.length = st.input_types.length * eps.length ∧
      ∀ t ∈ st.input_types,
        (⟨st._get_test_name X t, none, .failWith "Invalid schema for endpoint",
          st.fixtureinfo, [], none, t⟩ : SchemathesisFunction) ∈ l ∧
        (⟨st._get_test_name Y t, none, .created Y t,
          st.fixtureinfo, [], none, t⟩ : SchemathesisFunction) ∈ l := by
  refine ⟨_, st.collect_eq eps hep hok, ?_, ?_⟩
  · rw [flat_no_calls st eps hcalls]
    exact flatMap_map_length _ _ _
  · intro t ht
    rw [flat_no_calls st eps hcalls]
    constructor
    · refine List.mem_flatMap.mpr ⟨t, ht, ?_⟩
      refine List.mem_map.mpr ⟨X, hX, ?_⟩
      simp [SchemathesisCase.makeTestFun, hfail t]
    · refine List.mem_flatMap.mpr ⟨t, ht, ?_⟩
      refine List.mem_map.mpr ⟨Y, hY, ?_⟩
      simp [SchemathesisCase.makeTestFun, hgood t]

/-- C5 witness: with `epBroken` failing materialization in both classes and
`epHealthy` succeeding, the four emitted items contain, per class, one
unconditionally-failing item for `epBroken` and one correct item for
`epHealthy`. -/
theorem C5_invalid_schema_isolation_witness :
    stPartialFailure.calls = [] ∧
    (∀ t, stPartialFailure.createTest epBroken t = .invalidSchema) ∧
    (∀ t, stPartialFailure.createTest epHealthy t = .ok) ∧
    ∃ l, stPartialFailure.collect = .items l ∧
      l.length = stPartialFailure.input_types.length * 2 ∧
      ∀ t ∈ stPartialFailure.input_types,
        (⟨stPartialFailure._get_test_name epBroken t, none,
          .failWith "Invalid schema for endpoint",
          stPartialFailure.fixtureinfo, [], none, t⟩ : SchemathesisFunction) ∈ l ∧
        (⟨stPartialFailure._get_test_name epHealthy t, none, .created epHealthy t,
          stPartialFailure.fixtureinfo, [], none, t⟩ : SchemathesisFunction) ∈ l :=
  ⟨rfl, fun _ => rfl, fun _ => rfl,
    C5_invalid_schema_isolation stPartialFailure [epBroken, epHealthy] epBroken epHealthy
      rfl rfl (by decide) (by decide) (fun _ => rfl) (fun _ => rfl)
      (by intro t e m h; by_cases hc : e = epBroken <;> simp [stPartialFailure, hc] at h)⟩

/-- C8: `collect` enumerates validity classes as the outer loop and
endpoints as the inner loop, both in catalog order (not sorted), and
within one materialized case the parametrization sub-items appear in the
order the hooks registered their calls. -/
theorem C8_enumeration_order (st : SchemathesisCase) (eps : List Endpoint)
    (hep : st.endpointsResult = .ok eps)
    (hok : ∀ t e m, st.createTest e t ≠ .otherError m) :
    st.collect = .items (st.input_types.flatMap fun t => eps.flatMap fun e =>
      if st.calls = [] then
        [⟨st._get_test_name e t, none, st.makeTestFun e t, st.fixtureinfo, [], none, t⟩]
      else
        st.calls.map fun cid =>
          ⟨st._get_test_name e t ++ "[" ++ cid ++ "]", some cid, st.makeTestFun e t,
            st.fixtureinfo.prune_dependency_tree, [(cid, true)],
            some (st._get_test_name e t), t⟩) :=
  st.collect_eq eps hep hok

/-- C8 witness: a two-class, two-endpoint catalog with one registered
parametrization call, collected in the stated nested order. -/
theorem C8_enumeration_order_witness :
    stSameCatalogA.endpointsResult = .ok epsAB ∧
    stSameCatalogA.collect = .items (stSameCatalogA.input_types.flatMap fun t =>
      epsAB.flatMap fun e =>
      if stSameCatalogA.calls = [] then
        [⟨stSameCatalogA._get_test_name e t, none, stSameCatalogA.makeTestFun e t,
          stSameCatalogA.fixtureinfo, [], none, t⟩]
      else
        stSameCatalogA.calls.map fun cid =>
          ⟨stSameCatalogA._get_test_name e t ++ "[" ++ cid ++ "]", some cid,
            stSameCatalogA.makeTestFun e t,
            stSameCatalogA.fixtureinfo.prune_dependency_tree, [(cid, true)],
            some (stSameCatalogA._get_test_name e t), t⟩) :=
  ⟨rfl, C8_enumeration_order stSameCatalogA epsAB rfl (fun _ _ _ h => nomatch h)⟩

/-- C9: collection is deterministic in the catalog state — two collectors
with the same base name, the same validity classes, the same endpoint
sequence and the same registered parametrization calls produce the same
ordered sequence of item names (regardless of materialization results and
fixture info); in particular re-running `collect` on unchanged state
yields the same names. -/
theorem C9_collection_deterministic (st1 st2 : SchemathesisCase) (eps : List Endpoint)
    (hname : st1.name = st2.name)
    (hts : st1.input_types = st2.input_types)
    (hep1 : st1.endpointsResult = .ok eps)
    (hep2 : st2.endpointsResult = .ok eps)
    (hcalls : st1.calls = st2.calls)
    (hok1 : ∀ t e m, st1.createTest e t ≠ .otherError m)
    (hok2 : ∀ t e m, st2.createTest e t ≠ .otherError m) :
    st1.collect.itemNames = st2.collect.itemNames := by
  rw [st1.collect_names eps hep1 hok1, st2.collect_names eps hep2 hok2,
    hname, hts, hcalls]

/-- C9 witness: two states with the same catalog data but different
materialization behaviour and different fixture info yield the same
ordered name sequence. -/
theorem C9_collection_deterministic_witness :
    stSameCatalogA.name = stSameCatalogB.name ∧
    stSameCatalogA.input_types = stSameCatalogB.input_types ∧
    stSameCatalogA.calls = stSameCatalogB.calls ∧
    stSameCatalogA.fixtureinfo ≠ stSameCatalogB.fixtureinfo ∧
    stSameCatalogA.collect.itemNames = stSameCatalogB.collect.itemNames :=
  ⟨rfl, rfl, rfl, by decide,
    C9_collection_deterministic stSameCatalogA stSameCatalogB epsAB rfl rfl rfl rfl rfl
      (fun _ _ _ h => nomatch h) (fun _ _ _ h => nomatch h)⟩
